import Mathlib

/-!
Shallow embedding of the Keyword Gap Analyzer core:
`src/core/analyzer.py` (class KeywordGapAnalyzer), `src/utils/data_loader.py`
(DataLoader._clean_data) and the sentinel handling of `src/app_simple.py`
(analyze_keyword_gaps).

Modelling conventions:
- a pandas numeric cell is `Option ℚ`: `some v` for a parsed value, `none` for `NaN`;
- pandas comparisons where one side is `NaN` are false (`optGe`, `optLe`);
- pandas arithmetic propagates `NaN` (`Option`-valued score columns);
- `Series.sum` skips `NaN` and is `0` on an empty column (`colSum`);
- `Series.mean` skips `NaN` and is `NaN` on an empty column (`colMean` returns `none`);
- `sort_values(ascending=False)` is modelled by an insertion sort with `NaN` last;
  none of the claims depend on the relative order of ties, only on membership;
- the analyzer object is `AnalyzerState` (fields `client_df`, `competitor_df`,
  `merged_df`, each `None` before `load_data` runs).
-/

namespace KeywordGap

/-- A row of a source table (client or competitor export) as handed to
`KeywordGapAnalyzer.load_data`: the columns selected at analyzer.py lines 22-25.
Numeric cells are `some v` when parsed, `none` for pandas `NaN`. -/
structure SourceRow where
  keyword : String
  position : Option ℚ
  searchVolume : Option ℚ
  keywordDifficulty : Option ℚ
  cpc : Option ℚ
  traffic : Option ℚ
  trafficCost : Option ℚ
  keywordIntents : Option String
  url : Option String
deriving DecidableEq

/-- A row of `self.merged_df` after the outer merge and the
`fillna(100)` on the two position columns (analyzer.py lines 21-33).
`funnelStage` models the `Funnel Stage` column, absent (`none`) until
`get_content_gap_analysis` writes it. -/
structure MergedRow where
  keyword : String
  positionClient : ℚ
  positionCompetitor : ℚ
  searchVolumeClient : Option ℚ
  keywordDifficultyClient : Option ℚ
  cpcClient : Option ℚ
  trafficClient : Option ℚ
  trafficCostClient : Option ℚ
  keywordIntentsClient : Option String
  urlClient : Option String
  searchVolumeCompetitor : Option ℚ
  keywordDifficultyCompetitor : Option ℚ
  cpcCompetitor : Option ℚ
  trafficCompetitor : Option ℚ
  trafficCostCompetitor : Option ℚ
  urlCompetitor : Option String
  funnelStage : Option String
deriving DecidableEq

/-- The value `fillna` writes into a missing position column in
`load_data` (analyzer.py lines 32-33): the literal `100`. -/
def NOT_RANKING_FILL : ℚ := 100

/-- Build one merged row from an optional client-side row and an optional
competitor-side row for the same keyword.  A missing side contributes `NaN`
to every one of its cells; the two position cells are then filled with
`NOT_RANKING_FILL` (the `fillna(100)` of analyzer.py lines 32-33). -/
def mkMerged (kw : String) (c k : Option SourceRow) : MergedRow where
  keyword := kw
  positionClient := (c.bind SourceRow.position).getD NOT_RANKING_FILL
  positionCompetitor := (k.bind SourceRow.position).getD NOT_RANKING_FILL
  searchVolumeClient := c.bind SourceRow.searchVolume
  keywordDifficultyClient := c.bind SourceRow.keywordDifficulty
  cpcClient := c.bind SourceRow.cpc
  trafficClient := c.bind SourceRow.traffic
  trafficCostClient := c.bind SourceRow.trafficCost
  keywordIntentsClient := c.bind SourceRow.keywordIntents
  urlClient := c.bind SourceRow.url
  searchVolumeCompetitor := k.bind SourceRow.searchVolume
  keywordDifficultyCompetitor := k.bind SourceRow.keywordDifficulty
  cpcCompetitor := k.bind SourceRow.cpc
  trafficCompetitor := k.bind SourceRow.traffic
  trafficCostCompetitor := k.bind SourceRow.trafficCost
  urlCompetitor := k.bind SourceRow.url
  funnelStage := none

/-- The outer merge of `load_data` (analyzer.py lines 21-29): one row per
client row and matching competitor row (all matches when keys repeat), a
client-only row when no competitor row shares the keyword, and one row for
every competitor row whose keyword is absent from the client table. -/
def mergeOuter (cs ks : List SourceRow) : List MergedRow :=
  (cs.flatMap (fun c =>
    match ks.filter (fun k => k.keyword == c.keyword) with
    | [] => [mkMerged c.keyword (some c) none]
    | ms => ms.map (fun k => mkMerged c.keyword (some c) (some k))))
  ++ ((ks.filter (fun k => cs.all (fun c => !(c.keyword == k.keyword)))).map
      (fun k => mkMerged k.keyword none (some k)))

/-- The `KeywordGapAnalyzer` object: the three dataframe attributes set in
`__init__` (analyzer.py lines 10-13), each `None` until `load_data` runs. -/
structure AnalyzerState where
  client_df : Option (List SourceRow)
  competitor_df : Option (List SourceRow)
  merged_df : Option (List MergedRow)
deriving DecidableEq

/-- The freshly constructed analyzer (analyzer.py lines 10-13). -/
def initState : AnalyzerState := ⟨none, none, none⟩

/-- `KeywordGapAnalyzer.load_data` (analyzer.py lines 15-33): store both
inputs and the outer merge with its position columns filled. -/
def load_data (cdf kdf : List SourceRow) : AnalyzerState :=
  ⟨some cdf, some kdf, some (mergeOuter cdf kdf)⟩

/-- Pandas comparison `x >= c` where `x` may be `NaN`: false on `NaN`. -/
def optGe (x : Option ℚ) (c : ℚ) : Bool :=
  match x with
  | some v => decide (c ≤ v)
  | none => false

/-- Pandas comparison `x <= c` where `x` may be `NaN`: false on `NaN`. -/
def optLe (x : Option ℚ) (c : ℚ) : Bool :=
  match x with
  | some v => decide (v ≤ c)
  | none => false

/-- Descending comparison on a possibly-`NaN` sort key, `NaN` placed last,
modelling `sort_values(ascending=False)` with the default `na_position`. -/
def descKey (x y : Option ℚ) : Bool :=
  match x, y with
  | some a, some b => decide (b ≤ a)
  | some _, none => true
  | none, some _ => false
  | none, none => true

/-- Sort a table by a possibly-`NaN` key, descending, `NaN` last.  The
claims below depend only on membership, never on the relative order the
sort produces. -/
def sortRows {α : Type} (key : α → Option ℚ) (l : List α) : List α :=
  l.insertionSort (fun a b => descKey (key a) (key b) = true)

/-- The filter of `get_quick_wins` (analyzer.py lines 76-83): client
position in 6..10, competitor position in 1..5, client search volume at
least 100, client keyword difficulty at most 70. -/
def quickWinPred (r : MergedRow) : Bool :=
  decide (6 ≤ r.positionClient) && decide (r.positionClient ≤ 10) &&
  decide (1 ≤ r.positionCompetitor) && decide (r.positionCompetitor ≤ 5) &&
  optGe r.searchVolumeClient 100 && optLe r.keywordDifficultyClient 70

/-- The `Opportunity Score` column of `get_quick_wins` (analyzer.py lines
86-89): `Search Volume_client * (1 - Keyword Difficulty_client / 100)`,
`NaN` when either input cell is `NaN`. -/
def opportunityScore (r : MergedRow) : Option ℚ :=
  match r.searchVolumeClient, r.keywordDifficultyClient with
  | some v, some d => some (v * (1 - d / 100))
  | _, _ => none

/-- A row of the table `get_quick_wins` returns: the merged row plus its
`Opportunity Score` column. -/
structure QuickWinRow where
  row : MergedRow
  score : Option ℚ
deriving DecidableEq

/-- `KeywordGapAnalyzer.get_quick_wins` (analyzer.py lines 70-91). -/
def get_quick_wins (s : AnalyzerState) : List QuickWinRow :=
  match s.merged_df with
  | none => []
  | some rows =>
    sortRows (fun q => q.score)
      ((rows.filter quickWinPred).map (fun r => ⟨r, opportunityScore r⟩))

/-- The filter of `get_steal_opportunities` (analyzer.py lines 99-105):
client position above 10 or equal to the fill value 100, competitor
position in 1..5, competitor search volume at least 100. -/
def stealPred (r : MergedRow) : Bool :=
  (decide (10 < r.positionClient) || decide (r.positionClient = NOT_RANKING_FILL)) &&
  decide (1 ≤ r.positionCompetitor) && decide (r.positionCompetitor ≤ 5) &&
  optGe r.searchVolumeCompetitor 100

/-- A row of the table `get_steal_opportunities` returns: the merged row
plus its `Potential Traffic` and `Potential Value` columns. -/
structure StealRow where
  row : MergedRow
  potentialTraffic : Option ℚ
  potentialValue : Option ℚ
deriving DecidableEq

/-- `KeywordGapAnalyzer.get_steal_opportunities` (analyzer.py lines
93-111): the two added columns scale the competitor traffic and traffic
cost by `0.3`. -/
def get_steal_opportunities (s : AnalyzerState) : List StealRow :=
  match s.merged_df with
  | none => []
  | some rows =>
    sortRows (fun q => q.row.trafficCompetitor)
      ((rows.filter stealPred).map
        (fun r => ⟨r, r.trafficCompetitor.map (fun t => t * (3 / 10)),
                     r.trafficCostCompetitor.map (fun t => t * (3 / 10))⟩))

/-- The filter of `get_defensive_keywords` (analyzer.py lines 119-125):
client position in 1..5, competitor position in 2..10, client search
volume at least 100.  There is no `K < C + 5` test in the source. -/
def defensivePred (r : MergedRow) : Bool :=
  decide (1 ≤ r.positionClient) && decide (r.positionClient ≤ 5) &&
  decide (2 ≤ r.positionCompetitor) && decide (r.positionCompetitor ≤ 10) &&
  optGe r.searchVolumeClient 100

/-- The `Threat Level` column of `get_defensive_keywords` (analyzer.py
lines 128-131): `Search Volume_client * (1 / Position_competitor)`. -/
def threatLevel (r : MergedRow) : Option ℚ :=
  r.searchVolumeClient.map (fun v => v * (1 / r.positionCompetitor))

/-- A row of the table `get_defensive_keywords` returns: the merged row
plus its `Threat Level` column. -/
structure DefensiveRow where
  row : MergedRow
  threat : Option ℚ
deriving DecidableEq

/-- `KeywordGapAnalyzer.get_defensive_keywords` (analyzer.py lines 113-133). -/
def get_defensive_keywords (s : AnalyzerState) : List DefensiveRow :=
  match s.merged_df with
  | none => []
  | some rows =>
    sortRows (fun q => q.threat)
      ((rows.filter defensivePred).map (fun r => ⟨r, threatLevel r⟩))

/-- The filter of `get_client_wins` (analyzer.py lines 141-144): client
position strictly below the competitor position and at most 10. -/
def clientWinPred (r : MergedRow) : Bool :=
  decide (r.positionClient < r.positionCompetitor) && decide (r.positionClient ≤ 10)

/-- A row of the table `get_client_wins` returns: the merged row plus its
`Win Margin` column (both position columns are filled, so the margin is
never `NaN`). -/
structure ClientWinRow where
  row : MergedRow
  winMargin : ℚ
deriving DecidableEq

/-- `KeywordGapAnalyzer.get_client_wins` (analyzer.py lines 135-151). -/
def get_client_wins (s : AnalyzerState) : List ClientWinRow :=
  match s.merged_df with
  | none => []
  | some rows =>
    sortRows (fun q => some q.winMargin)
      ((rows.filter clientWinPred).map
        (fun r => ⟨r, r.positionCompetitor - r.positionClient⟩))

/-- Does the first character list start the second one? (helper for the
substring test below). -/
def strStarts : List Char → List Char → Bool
  | [], _ => true
  | _ :: _, [] => false
  | a :: as, b :: bs => a == b && strStarts as bs

/-- Does the needle occur as a contiguous substring of the haystack?
Models the Python `needle in haystack` test on strings. -/
def strHas (needle : List Char) : List Char → Bool
  | [] => needle.isEmpty
  | c :: rest => strStarts needle (c :: rest) || strHas needle rest

/-- ASCII lowering of one character, as Python `str.lower` acts on the
intent strings that occur in this data (ASCII letters). -/
def charLower (c : Char) : Char :=
  if 'A' ≤ c ∧ c ≤ 'Z' then Char.ofNat (c.toNat + 32) else c

/-- Python `intent_str.lower()` as a character list. -/
def pyLower (s : String) : List Char := s.toList.map charLower

/-- Python `w in ls` for a lowered intent string. -/
def pyContains (ls : List Char) (w : String) : Bool := strHas w.toList ls

/-- The local `map_intent_to_funnel` of `get_content_gap_analysis`
(analyzer.py lines 178-190): `NaN` maps to `tofu`; otherwise the lowered
string is tested against three word lists in order, defaulting to `tofu`. -/
def map_intent_to_funnel (intent : Option String) : String :=
  match intent with
  | none => "tofu"
  | some s =>
    let ls := pyLower s
    if pyContains ls "informational" || pyContains ls "how" ||
       pyContains ls "what" || pyContains ls "guide" then "tofu"
    else if pyContains ls "commercial" || pyContains ls "best" ||
       pyContains ls "review" || pyContains ls "vs" then "mofu"
    else if pyContains ls "transactional" || pyContains ls "buy" ||
       pyContains ls "price" || pyContains ls "deal" then "bofu"
    else "tofu"

/-- The three funnel-stage gap tables returned by
`get_content_gap_analysis`. -/
structure GapTables where
  tofu : List MergedRow
  mofu : List MergedRow
  bofu : List MergedRow
deriving DecidableEq

/-- The per-stage filter of `get_content_gap_analysis` (analyzer.py lines
200-205): funnel stage equal to the stage, client position above 10 or
equal to the fill value, competitor position at most 5. -/
def gapPred (stage : String) (r : MergedRow) : Bool :=
  (r.funnelStage == some stage) &&
  (decide (10 < r.positionClient) || decide (r.positionClient = NOT_RANKING_FILL)) &&
  decide (r.positionCompetitor ≤ 5)

/-- One stage table of `get_content_gap_analysis`, sorted by competitor
search volume descending (analyzer.py line 206). -/
def gapStage (rows : List MergedRow) (stage : String) : List MergedRow :=
  sortRows (fun r => r.searchVolumeCompetitor) (rows.filter (gapPred stage))

/-- `KeywordGapAnalyzer.get_content_gap_analysis` (analyzer.py lines
172-208).  The method writes the `Funnel Stage` column onto
`self.merged_df` itself (line 193), so it returns the updated state
together with the three gap tables; with no data loaded it returns the
state untouched and three empty tables. -/
def get_content_gap_analysis (s : AnalyzerState) : AnalyzerState × GapTables :=
  match s.merged_df with
  | none => (s, ⟨[], [], []⟩)
  | some rows =>
    let rows2 := rows.map (fun r =>
      { r with funnelStage := some (map_intent_to_funnel r.keywordIntentsClient) })
    (⟨s.client_df, s.competitor_df, some rows2⟩,
     ⟨gapStage rows2 "tofu", gapStage rows2 "mofu", gapStage rows2 "bofu"⟩)

/-- Pandas `Series.sum`: `NaN` cells are skipped, the empty sum is `0`. -/
def colSum (xs : List (Option ℚ)) : ℚ := (xs.filterMap id).sum

/-- Pandas `Series.mean`: `NaN` cells are skipped; an empty or all-`NaN`
column has mean `NaN` (`none`). -/
def colMean (xs : List (Option ℚ)) : Option ℚ :=
  let vs := xs.filterMap id
  if vs.length = 0 then none else some (vs.sum / (vs.length : ℚ))

/-- The per-side metrics dict of `get_executive_summary` (analyzer.py
lines 38-50). -/
structure SideMetrics where
  total_keywords : ℕ
  avg_position : Option ℚ
  total_traffic : ℚ
  total_traffic_cost : ℚ
deriving DecidableEq

/-- The `market_share` dict of `get_executive_summary` (analyzer.py lines
53-56). -/
structure MarketShare where
  client : ℚ
  competitor : ℚ
deriving DecidableEq

/-- The dict returned by `get_executive_summary` (analyzer.py lines 63-68). -/
structure Summary where
  client : SideMetrics
  competitor : SideMetrics
  market_share : MarketShare
  opportunity_score : ℕ
deriving DecidableEq

/-- The per-side metrics of `get_executive_summary`: row count, mean
position, traffic and traffic-cost totals. -/
def sideMetrics (df : List SourceRow) : SideMetrics :=
  ⟨df.length, colMean (df.map SourceRow.position),
   colSum (df.map SourceRow.traffic), colSum (df.map SourceRow.trafficCost)⟩

/-- The market-share computation of `get_executive_summary` (analyzer.py
lines 52-56): each side's traffic over the combined total, times 100, when
the total is positive; both `0` otherwise. -/
def marketShare (c k : ℚ) : MarketShare :=
  ⟨if 0 < c + k then c / (c + k) * 100 else 0,
   if 0 < c + k then k / (c + k) * 100 else 0⟩

/-- `KeywordGapAnalyzer.get_executive_summary` (analyzer.py lines 35-68).
With either source table still `None` the Python method would raise
(`len(None)`); that failure is modelled as `none`.  The opportunity score
counts the quick-win and steal rows. -/
def get_executive_summary (s : AnalyzerState) : Option Summary :=
  match s.client_df, s.competitor_df with
  | some cdf, some kdf =>
    some ⟨sideMetrics cdf, sideMetrics kdf,
      marketShare (sideMetrics cdf).total_traffic (sideMetrics kdf).total_traffic,
      (get_quick_wins s).length + (get_steal_opportunities s).length⟩
  | _, _ => none

/-- A row of a raw table as it reaches `DataLoader._clean_data`
(data_loader.py lines 112-138), after `pd.to_numeric(errors=coerce)` is
modelled cellwise: `some v` when the cell parsed as a number, `none` when
it was non-numeric or missing (`NaN`). -/
structure LoaderRow where
  keyword : Option String
  position : Option ℚ
  prevPosition : Option ℚ
  searchVolume : Option ℚ
  keywordDifficulty : Option ℚ
  cpc : Option ℚ
  traffic : Option ℚ
  trafficPct : Option ℚ
  trafficCost : Option ℚ
  competition : Option ℚ
  numResults : Option ℚ
deriving DecidableEq

/-- A row of the table `_clean_data` returns: the same cells after the
three `fillna` steps plus the two calculated columns. -/
structure CleanRow where
  keyword : Option String
  position : Option ℚ
  prevPosition : Option ℚ
  searchVolume : Option ℚ
  keywordDifficulty : Option ℚ
  cpc : Option ℚ
  traffic : Option ℚ
  trafficPct : Option ℚ
  trafficCost : Option ℚ
  competition : Option ℚ
  numResults : Option ℚ
  positionChange : Option ℚ
  oppScore : Option ℚ
deriving DecidableEq

/-- The row-wise action of `DataLoader._clean_data` (data_loader.py lines
112-138): `Previous position` falls back to `Position`, `Keyword
Difficulty` to `50`, `CPC` to `0`; every other cell is passed through
unchanged (`NaN` included); `Position Change` and `Opportunity Score` are
computed with `NaN`-propagating arithmetic. -/
def cleanRow (r : LoaderRow) : CleanRow :=
  let prev : Option ℚ := match r.prevPosition with
    | some p => some p
    | none => r.position
  let posChange : Option ℚ := match prev, r.position with
    | some a, some b => some (a - b)
    | _, _ => none
  let opp : Option ℚ := match r.searchVolume, r.trafficPct with
    | some v, some t => some (v * t / (r.keywordDifficulty.getD 50 + 1))
    | _, _ => none
  ⟨r.keyword, r.position, prev, r.searchVolume,
   some (r.keywordDifficulty.getD 50), some (r.cpc.getD 0),
   r.traffic, r.trafficPct, r.trafficCost, r.competition, r.numResults,
   posChange, opp⟩

/-- `DataLoader._clean_data` on a whole table: a row-wise map, with no
row ever dropped. -/
def clean_data (l : List LoaderRow) : List CleanRow := l.map cleanRow

/-- The sentinel `app_simple.py` line 182 substitutes for a missing client
position inside `analyze_keyword_gaps`: the literal `999`. -/
def appSimpleClientPos (p : Option ℚ) : ℚ := p.getD 999

/-- Modelled from the spec (section 4.4 table, row Defensive): the
Defensive predicate as the spec words it, for comparison with
`defensivePred` translated from the source: position ranges only, a strict
`K < C + 5` proximity test, and no volume condition. -/
def specDefensivePred (r : MergedRow) : Bool :=
  decide (1 ≤ r.positionClient) && decide (r.positionClient ≤ 5) &&
  decide (2 ≤ r.positionCompetitor) && decide (r.positionCompetitor ≤ 10) &&
  decide (r.positionCompetitor < r.positionClient + 5)

/-! Concrete fixtures used by the witnesses and counterexamples. -/

/-- Scenario C client row: position 2, volume 500 (difficulty 20). -/
def cC1 : SourceRow := ⟨"apex", some 2, some 500, some 20, some 0, some 0, some 0, none, none⟩

/-- Scenario C competitor row: position 7. -/
def kC1 : SourceRow := ⟨"apex", some 7, some 400, some 30, some 0, some 0, some 0, none, none⟩

/-- Analyzer state for scenario C. -/
def sC1 : AnalyzerState := load_data [cC1] [kC1]

/-- The single merged row of scenario C: client position 2, competitor
position 7, client volume 500. -/
def rC1 : MergedRow := mkMerged "apex" (some cC1) (some kC1)

/-- A competitor-only source row (scenario B: position 2, volume 800). -/
def kB : SourceRow := ⟨"cloud", some 2, some 800, some 40, some 1, some 50, some 60, none, some "u"⟩

/-- Analyzer state for scenario B: the keyword exists only on the
competitor side. -/
def sB : AnalyzerState := load_data [] [kB]

/-- The single merged row of scenario B: client side synthesized. -/
def rB : MergedRow := mkMerged "cloud" none (some kB)

/-- Scenario A client row: position 8, volume 500, difficulty 30. -/
def cA : SourceRow := ⟨"shoes", some 8, some 500, some 30, some 1, some 10, some 20, none, none⟩

/-- Scenario A competitor row: position 3. -/
def kA : SourceRow := ⟨"shoes", some 3, some 450, some 35, some 1, some 30, some 40, none, none⟩

/-- Analyzer state for scenario A. -/
def sA : AnalyzerState := load_data [cA] [kA]

/-- The single merged row of scenario A. -/
def rA : MergedRow := mkMerged "shoes" (some cA) (some kA)

/-- Client source row for the market-share witness: position 3, traffic 30. -/
def c5 : SourceRow := ⟨"alpha", some 3, some 200, some 10, some 1, some 30, some 5, none, none⟩

/-- Analyzer state for the market-share witness: one client row, empty
competitor table, combined traffic 30. -/
def sC5 : AnalyzerState := load_data [c5] []

/-- The summary the code produces on `sC5`. -/
def sumC5 : Summary :=
  ⟨⟨1, some 3, 30, 5⟩, ⟨0, none, 0, 0⟩, ⟨100, 0⟩, 0⟩

/-- A loader row whose `Position` and `Search Volume` cells failed to
parse and whose `Traffic` cell is also non-numeric. -/
def badLoaderRow : LoaderRow :=
  ⟨some "kw", none, none, none, none, none, none, none, some 9, some 1, some 2⟩

/-- Sorting never changes membership. -/
theorem mem_sortRows {α : Type} (key : α → Option ℚ) (l : List α) (a : α) :
    a ∈ sortRows key l ↔ a ∈ l :=
  List.mem_insertionSort _

/-- Sorting a one-element table is the identity. -/
theorem sortRows_singleton {α : Type} (key : α → Option ℚ) (a : α) :
    sortRows key [a] = [a] := rfl

/-- Membership in a sorted, column-extended, filtered table, reduced to
the underlying rows and predicate. -/
theorem mem_category {α β : Type} (key : β → Option ℚ) (tag : α → β)
    (pred : α → Bool) (rows : List α) (q : β) :
    q ∈ sortRows key ((rows.filter pred).map tag) ↔
      ∃ r ∈ rows, pred r = true ∧ tag r = q := by
  rw [mem_sortRows]
  simp [List.mem_filter, and_assoc]

/-- Unfold `optGe` to an existential over the parsed value. -/
theorem optGe_iff (x : Option ℚ) (c : ℚ) :
    optGe x c = true ↔ ∃ v, x = some v ∧ c ≤ v := by
  cases x <;> simp [optGe]

/-- Unfold `optLe` to an existential over the parsed value. -/
theorem optLe_iff (x : Option ℚ) (c : ℚ) :
    optLe x c = true ↔ ∃ v, x = some v ∧ v ≤ c := by
  cases x <;> simp [optLe]

/-- The quick-win filter, in propositional form. -/
theorem quickWinPred_iff (r : MergedRow) :
    quickWinPred r = true ↔
      6 ≤ r.positionClient ∧ r.positionClient ≤ 10 ∧
      1 ≤ r.positionCompetitor ∧ r.positionCompetitor ≤ 5 ∧
      (∃ v, r.searchVolumeClient = some v ∧ 100 ≤ v) ∧
      (∃ d, r.keywordDifficultyClient = some d ∧ d ≤ 70) := by
  simp [quickWinPred, Bool.and_eq_true, decide_eq_true_eq, optGe_iff, optLe_iff, and_assoc]

/-- The steal-opportunity filter, in propositional form. -/
theorem stealPred_iff (r : MergedRow) :
    stealPred r = true ↔
      (10 < r.positionClient ∨ r.positionClient = NOT_RANKING_FILL) ∧
      1 ≤ r.positionCompetitor ∧ r.positionCompetitor ≤ 5 ∧
      (∃ v, r.searchVolumeCompetitor = some v ∧ 100 ≤ v) := by
  simp [stealPred, Bool.and_eq_true, Bool.or_eq_true, decide_eq_true_eq, optGe_iff, and_assoc]

/-- The defensive filter, in propositional form. -/
theorem defensivePred_iff (r : MergedRow) :
    defensivePred r = true ↔
      1 ≤ r.positionClient ∧ r.positionClient ≤ 5 ∧
      2 ≤ r.positionCompetitor ∧ r.positionCompetitor ≤ 10 ∧
      (∃ v, r.searchVolumeClient = some v ∧ 100 ≤ v) := by
  simp [defensivePred, Bool.and_eq_true, decide_eq_true_eq, optGe_iff, and_assoc]

/-- `get_quick_wins` on a loaded state, unfolded. -/
theorem get_quick_wins_some (s : AnalyzerState) (rows : List MergedRow)
    (hs : s.merged_df = some rows) :
    get_quick_wins s
      = sortRows (fun q => q.score)
          ((rows.filter quickWinPred).map (fun r => ⟨r, opportunityScore r⟩)) := by
  unfold get_quick_wins
  rw [hs]

/-- `get_steal_opportunities` on a loaded state, unfolded. -/
theorem get_steal_opportunities_some (s : AnalyzerState) (rows : List MergedRow)
    (hs : s.merged_df = some rows) :
    get_steal_opportunities s
      = sortRows (fun q => q.row.trafficCompetitor)
          ((rows.filter stealPred).map
            (fun r => ⟨r, r.trafficCompetitor.map (fun t => t * (3 / 10)),
                         r.trafficCostCompetitor.map (fun t => t * (3 / 10))⟩)) := by
  unfold get_steal_opportunities
  rw [hs]

/-- `get_defensive_keywords` on a loaded state, unfolded. -/
theorem get_defensive_keywords_some (s : AnalyzerState) (rows : List MergedRow)
    (hs : s.merged_df = some rows) :
    get_defensive_keywords s
      = sortRows (fun q => q.threat)
          ((rows.filter defensivePred).map (fun r => ⟨r, threatLevel r⟩)) := by
  unfold get_defensive_keywords
  rw [hs]

/-- C1 (amended): a row is in the Defensive table exactly when its client
position is in 1..5, its competitor position is in 2..10 and its client
search volume is at least 100; the threat column is volume times the
reciprocal competitor position.  The source predicate has no strict
proximity test `K < C + 5`, and it does constrain the client search
volume. -/
theorem C1_defensive_membership (s : AnalyzerState) (rows : List MergedRow)
    (hs : s.merged_df = some rows) (q : DefensiveRow) :
    q ∈ get_defensive_keywords s ↔
      q.row ∈ rows ∧ q.threat = threatLevel q.row ∧
      1 ≤ q.row.positionClient ∧ q.row.positionClient ≤ 5 ∧
      2 ≤ q.row.positionCompetitor ∧ q.row.positionCompetitor ≤ 10 ∧
      (∃ v, q.row.searchVolumeClient = some v ∧ 100 ≤ v) := by
  obtain ⟨row, threat⟩ := q
  dsimp only
  rw [get_defensive_keywords_some s rows hs, mem_category]
  constructor
  · rintro ⟨r, hr, hpred, heq⟩
    obtain ⟨h1, h2, h3, h4, v, hv, h100⟩ := (defensivePred_iff r).mp hpred
    injection heq with e1 e2
    subst e1
    subst e2
    exact ⟨hr, rfl, h1, h2, h3, h4, v, hv, h100⟩
  · rintro ⟨hmem, hth, h1, h2, h3, h4, v, hv, h100⟩
    refine ⟨row, hmem, (defensivePred_iff row).mpr ⟨h1, h2, h3, h4, v, hv, h100⟩, ?_⟩
    rw [hth]

/-- Witness for C1 at scenario C data: the client-position-2,
competitor-position-7, volume-500 row is in the Defensive table. -/
theorem C1_defensive_membership_witness :
    (⟨rC1, threatLevel rC1⟩ : DefensiveRow) ∈ get_defensive_keywords sC1 := by
  refine (C1_defensive_membership sC1 (mergeOuter [cC1] [kC1]) rfl _).mpr
    ⟨?_, rfl, ?_, ?_, ?_, ?_, 500, rfl, ?_⟩
  · rw [show mergeOuter [cC1] [kC1] = [rC1] from rfl]
    exact List.mem_singleton.mpr rfl
  all_goals norm_num [rC1, mkMerged, cC1, kC1]

/-- C1 counterexample: the spec scenario says a row with client position 2
and competitor position 7 does NOT appear in the Defensive table, since
7 < 2 + 5 fails; in the source this row (volume 500) IS in the Defensive
table, because the code has no `K < C + 5` test. -/
theorem C1_counterexample :
    (⟨rC1, threatLevel rC1⟩ : DefensiveRow) ∈ get_defensive_keywords sC1 ∧
    rC1.positionClient = 2 ∧ rC1.positionCompetitor = 7 ∧
    ¬ (rC1.positionCompetitor < rC1.positionClient + 5) ∧
    specDefensivePred rC1 = false := by
  refine ⟨?_, rfl, rfl, ?_, ?_⟩
  · rw [get_defensive_keywords_some sC1 (mergeOuter [cC1] [kC1]) rfl, mem_category]
    refine ⟨rC1, ?_, ?_, rfl⟩
    · rw [show mergeOuter [cC1] [kC1] = [rC1] from rfl]
      exact List.mem_singleton.mpr rfl
    · rw [defensivePred_iff]
      refine ⟨?_, ?_, ?_, ?_, 500, rfl, ?_⟩ <;> norm_num [rC1, mkMerged, cC1, kC1]
  · rw [show rC1.positionCompetitor = 7 from rfl, show rC1.positionClient = 2 from rfl]
    norm_num
  · rw [Bool.eq_false_iff]
    intro hx
    simp only [specDefensivePred, Bool.and_eq_true, decide_eq_true_eq] at hx
    obtain ⟨-, h⟩ := hx
    rw [show rC1.positionCompetitor = 7 from rfl, show rC1.positionClient = 2 from rfl] at h
    norm_num at h

/-- C3 (confirmed): a row is in the Quick Wins table exactly when its
client position is in 6..10, its competitor position is in 1..5, its
client search volume is at least 100 and its client difficulty is at most
the maximum-difficulty threshold (the hard-coded 70), and its score column
is `Vc * (1 - Dc / 100)`. -/
theorem C3_quick_win_membership (s : AnalyzerState) (rows : List MergedRow)
    (hs : s.merged_df = some rows) (q : QuickWinRow) :
    q ∈ get_quick_wins s ↔
      q.row ∈ rows ∧ q.score = opportunityScore q.row ∧
      6 ≤ q.row.positionClient ∧ q.row.positionClient ≤ 10 ∧
      1 ≤ q.row.positionCompetitor ∧ q.row.positionCompetitor ≤ 5 ∧
      (∃ v, q.row.searchVolumeClient = some v ∧ 100 ≤ v ∧
       ∃ d, q.row.keywordDifficultyClient = some d ∧ d ≤ 70 ∧
        q.score = some (v * (1 - d / 100))) := by
  obtain ⟨row, score⟩ := q
  dsimp only
  rw [get_quick_wins_some s rows hs, mem_category]
  constructor
  · rintro ⟨r, hr, hpred, heq⟩
    obtain ⟨h1, h2, h3, h4, ⟨v, hv, h100⟩, ⟨d, hd, h70⟩⟩ := (quickWinPred_iff r).mp hpred
    injection heq with e1 e2
    subst e1
    subst e2
    refine ⟨hr, rfl, h1, h2, h3, h4, v, hv, h100, d, hd, h70, ?_⟩
    simp [opportunityScore, hv, hd]
  · rintro ⟨hmem, hsc, h1, h2, h3, h4, v, hv, h100, d, hd, h70, -⟩
    refine ⟨row, hmem,
      (quickWinPred_iff row).mpr ⟨h1, h2, h3, h4, ⟨v, hv, h100⟩, ⟨d, hd, h70⟩⟩, ?_⟩
    rw [hsc]

/-- Witness for C3 at scenario A data: the position-8, volume-500,
difficulty-30 client row against a position-3 competitor row is a Quick
Win with score 350. -/
theorem C3_quick_win_membership_witness :
    (⟨rA, some 350⟩ : QuickWinRow) ∈ get_quick_wins sA := by
  refine (C3_quick_win_membership sA (mergeOuter [cA] [kA]) rfl _).mpr
    ⟨?_, ?_, ?_, ?_, ?_, ?_, 500, rfl, ?_, 30, rfl, ?_, ?_⟩
  · rw [show mergeOuter [cA] [kA] = [rA] from rfl]
    exact List.mem_singleton.mpr rfl
  · rw [show opportunityScore rA = some (500 * (1 - 30 / 100)) from rfl]
    norm_num
  all_goals norm_num [rA, mkMerged, cA, kA]

/-- C4 (confirmed): a row is in the Steal Opportunities table exactly when
its client position is above 10 or equal to the not-ranking fill value,
its competitor position is in 1..5 and its competitor search volume is at
least 100; the added columns scale competitor traffic and traffic cost by
0.3. -/
theorem C4_steal_membership (s : AnalyzerState) (rows : List MergedRow)
    (hs : s.merged_df = some rows) (q : StealRow) :
    q ∈ get_steal_opportunities s ↔
      q.row ∈ rows ∧
      q.potentialTraffic = q.row.trafficCompetitor.map (fun t => t * (3 / 10)) ∧
      q.potentialValue = q.row.trafficCostCompetitor.map (fun t => t * (3 / 10)) ∧
      (10 < q.row.positionClient ∨ q.row.positionClient = NOT_RANKING_FILL) ∧
      1 ≤ q.row.positionCompetitor ∧ q.row.positionCompetitor ≤ 5 ∧
      (∃ v, q.row.searchVolumeCompetitor = some v ∧ 100 ≤ v) := by
  obtain ⟨row, pt, pv⟩ := q
  dsimp only
  rw [get_steal_opportunities_some s rows hs, mem_category]
  constructor
  · rintro ⟨r, hr, hpred, heq⟩
    obtain ⟨h1, h2, h3, v, hv, h100⟩ := (stealPred_iff r).mp hpred
    injection heq with e1 e2 e3
    subst e1
    subst e2
    subst e3
    exact ⟨hr, rfl, rfl, h1, h2, h3, v, hv, h100⟩
  · rintro ⟨hmem, hpt, hpv, h1, h2, h3, v, hv, h100⟩
    refine ⟨row, hmem, (stealPred_iff row).mpr ⟨h1, h2, h3, v, hv, h100⟩, ?_⟩
    rw [hpt, hpv]

/-- Witness for C4 at scenario B data: a keyword present only in the
competitor table at position 2 with volume 800 is a Steal Opportunity,
with potential traffic and value scaled by 0.3. -/
theorem C4_steal_membership_witness :
    (⟨rB, some 15, some 18⟩ : StealRow) ∈ get_steal_opportunities sB := by
  refine (C4_steal_membership sB (mergeOuter [] [kB]) rfl _).mpr
    ⟨?_, ?_, ?_, Or.inr rfl, ?_, ?_, 800, rfl, ?_⟩
  · rw [show mergeOuter [] [kB] = [rB] from rfl]
    exact List.mem_singleton.mpr rfl
  · rw [show rB.trafficCompetitor = some 50 from rfl, Option.map_some']
    norm_num
  · rw [show rB.trafficCostCompetitor = some 60 from rfl, Option.map_some']
    norm_num
  all_goals norm_num [rB, mkMerged, kB]

/-- C6 (confirmed): no merged row satisfies the Quick Win filter and the
Defensive filter at once; the client-position ranges 6..10 and 1..5 are
disjoint. -/
theorem C6_quickwin_defensive_exclusive (r : MergedRow) :
    (quickWinPred r && defensivePred r) = false := by
  rw [Bool.eq_false_iff]
  intro hx
  rw [Bool.and_eq_true, quickWinPred_iff, defensivePred_iff] at hx
  obtain ⟨⟨h6, -⟩, -, h5, -⟩ := hx
  linarith

/-- C2 (amended): for a keyword present in only one of the two input
tables - on either side - the outer join synthesizes the missing side with
its position filled to 100 (not 999) and every other missing-side cell
left `NaN` (not 0/empty); `app_simple.py` separately substitutes 999 for a
missing client position, so the two call sites use two different
sentinels, not one canonical one. -/
theorem C2_join_missing_side (cs ks : List SourceRow) :
    (∀ c ∈ cs, (∀ k ∈ ks, k.keyword ≠ c.keyword) →
      mkMerged c.keyword (some c) none ∈ mergeOuter cs ks ∧
      (mkMerged c.keyword (some c) none).positionCompetitor = NOT_RANKING_FILL ∧
      (mkMerged c.keyword (some c) none).searchVolumeCompetitor = none ∧
      (mkMerged c.keyword (some c) none).keywordDifficultyCompetitor = none ∧
      (mkMerged c.keyword (some c) none).trafficCompetitor = none ∧
      (mkMerged c.keyword (some c) none).trafficCostCompetitor = none ∧
      (mkMerged c.keyword (some c) none).urlCompetitor = none) ∧
    (∀ k ∈ ks, (∀ c ∈ cs, c.keyword ≠ k.keyword) →
      mkMerged k.keyword none (some k) ∈ mergeOuter cs ks ∧
      (mkMerged k.keyword none (some k)).positionClient = NOT_RANKING_FILL ∧
      (mkMerged k.keyword none (some k)).searchVolumeClient = none ∧
      (mkMerged k.keyword none (some k)).keywordDifficultyClient = none ∧
      (mkMerged k.keyword none (some k)).trafficClient = none ∧
      (mkMerged k.keyword none (some k)).trafficCostClient = none ∧
      (mkMerged k.keyword none (some k)).urlClient = none) ∧
    NOT_RANKING_FILL = 100 ∧
    appSimpleClientPos none = 999 := by
  refine ⟨?_, ?_, rfl, rfl⟩
  · intro c hc habs
    refine ⟨?_, rfl, rfl, rfl, rfl, rfl, rfl⟩
    apply List.mem_append_left
    rw [List.mem_flatMap]
    refine ⟨c, hc, ?_⟩
    have hf : ks.filter (fun k2 => k2.keyword == c.keyword) = [] := by
      rw [List.filter_eq_nil_iff]
      intro k2 hk2
      simp only [beq_iff_eq]
      exact habs k2 hk2
    rw [hf]
    exact List.mem_singleton.mpr rfl
  · intro k hk habs
    refine ⟨?_, rfl, rfl, rfl, rfl, rfl, rfl⟩
    apply List.mem_append_right
    apply List.mem_map_of_mem
    rw [List.mem_filter]
    refine ⟨hk, ?_⟩
    rw [List.all_eq_true]
    intro c hc
    simp only [Bool.not_eq_true']
    exact beq_eq_false_iff_ne.mpr (habs c hc)

/-- Witness for C2: tables with one client-only keyword and one
competitor-only keyword; both synthesized rows are in the join. -/
theorem C2_join_missing_side_witness :
    mkMerged c5.keyword (some c5) none ∈ mergeOuter [c5] [kB] ∧
    mkMerged kB.keyword none (some kB) ∈ mergeOuter [c5] [kB] := by
  have h := C2_join_missing_side [c5] [kB]
  refine ⟨(h.1 c5 (List.mem_singleton.mpr rfl) ?_).1,
          (h.2.1 kB (List.mem_singleton.mpr rfl) ?_).1⟩
  · intro k hk
    rw [List.mem_singleton] at hk
    subst hk
    decide
  · intro c hc
    rw [List.mem_singleton] at hc
    subst hc
    decide

/-- C2 counterexample: for a competitor-only keyword the joined row's
client position is 100, not the claimed 999, and its client search volume
and traffic stay `NaN` (`none`), not 0. -/
theorem C2_counterexample :
    (mergeOuter [] [kB]).map MergedRow.positionClient = [100] ∧
    (mergeOuter [] [kB]).map MergedRow.positionClient ≠ [999] ∧
    (mergeOuter [] [kB]).map MergedRow.searchVolumeClient = [none] ∧
    (mergeOuter [] [kB]).map MergedRow.trafficClient = [none] := by
  refine ⟨rfl, ?_, rfl, rfl⟩
  intro hx
  rw [show (mergeOuter [] [kB]).map MergedRow.positionClient = [100] from rfl] at hx
  injection hx with h1 h2
  norm_num at h1

/-- C5 (confirmed): whenever the summary exists, the two market-share
percentages sum to 100 if the combined traffic of the two tables is
positive, and both are 0 if the combined traffic is 0. -/
theorem C5_market_share (s : AnalyzerState) (sum : Summary)
    (h : get_executive_summary s = some sum) :
    (0 < sum.client.total_traffic + sum.competitor.total_traffic →
      sum.market_share.client + sum.market_share.competitor = 100) ∧
    (sum.client.total_traffic + sum.competitor.total_traffic = 0 →
      sum.market_share.client = 0 ∧ sum.market_share.competitor = 0) := by
  obtain ⟨cdf0, kdf0, mdf⟩ := s
  cases cdf0 with
  | none => exact absurd h (by simp [get_executive_summary])
  | some cdf =>
  cases kdf0 with
  | none => exact absurd h (by simp [get_executive_summary])
  | some kdf =>
  rw [show get_executive_summary ⟨some cdf, some kdf, mdf⟩
      = some ⟨sideMetrics cdf, sideMetrics kdf,
          marketShare (sideMetrics cdf).total_traffic (sideMetrics kdf).total_traffic,
          (get_quick_wins ⟨some cdf, some kdf, mdf⟩).length
            + (get_steal_opportunities ⟨some cdf, some kdf, mdf⟩).length⟩ from rfl] at h
  injection h with h
  subst h
  dsimp only [marketShare]
  constructor
  · intro hpos
    rw [if_pos hpos, if_pos hpos]
    have hne : (sideMetrics cdf).total_traffic + (sideMetrics kdf).total_traffic ≠ 0 :=
      ne_of_gt hpos
    field_simp
    ring
  · intro h0
    rw [if_neg (by rw [h0]; exact lt_irrefl 0), if_neg (by rw [h0]; exact lt_irrefl 0)]
    exact ⟨rfl, rfl⟩

/-- Witness for C5: a client table with traffic 30 against an empty
competitor table gives shares 100 and 0, which sum to 100. -/
theorem C5_market_share_witness :
    sumC5.market_share.client + sumC5.market_share.competitor = 100 := by
  have hq : quickWinPred (mkMerged "alpha" (some c5) none) = false := by
    rw [Bool.eq_false_iff]
    intro hx
    obtain ⟨h6, -⟩ := (quickWinPred_iff _).mp hx
    rw [show (mkMerged "alpha" (some c5) none).positionClient = 3 from rfl] at h6
    norm_num at h6
  have hst : stealPred (mkMerged "alpha" (some c5) none) = false := by
    rw [Bool.eq_false_iff]
    intro hx
    obtain ⟨h1, -⟩ := (stealPred_iff _).mp hx
    rw [show (mkMerged "alpha" (some c5) none).positionClient = 3 from rfl] at h1
    rcases h1 with h1 | h1
    · norm_num at h1
    · norm_num [NOT_RANKING_FILL] at h1
  have hqw : get_quick_wins sC5 = [] := by
    rw [get_quick_wins_some sC5 (mergeOuter [c5] []) rfl,
      show mergeOuter [c5] [] = [mkMerged "alpha" (some c5) none] from rfl,
      show ([mkMerged "alpha" (some c5) none].filter quickWinPred) = [] from by simp [hq]]
    rfl
  have hsl : get_steal_opportunities sC5 = [] := by
    rw [get_steal_opportunities_some sC5 (mergeOuter [c5] []) rfl,
      show mergeOuter [c5] [] = [mkMerged "alpha" (some c5) none] from rfl,
      show ([mkMerged "alpha" (some c5) none].filter stealPred) = [] from by simp [hst]]
    rfl
  have hside1 : sideMetrics [c5] = ⟨1, some 3, 30, 5⟩ := by
    norm_num [sideMetrics, colMean, colSum, c5, List.filterMap_cons, List.filterMap_nil, id]
  have hsum : get_executive_summary sC5 = some sumC5 := by
    rw [show get_executive_summary sC5
        = some ⟨sideMetrics [c5], sideMetrics [],
            marketShare (sideMetrics [c5]).total_traffic (sideMetrics []).total_traffic,
            (get_quick_wins sC5).length + (get_steal_opportunities sC5).length⟩ from rfl,
      hside1, show sideMetrics ([] : List SourceRow) = ⟨0, none, 0, 0⟩ from rfl,
      hqw, hsl]
    norm_num [marketShare, sumC5]
  exact (C5_market_share sC5 sumC5 hsum).1 (by norm_num [sumC5])

/-- C7 (amended): cleaning keeps every row (even with unparsable position
or search volume), fills only previous position, keyword difficulty (50)
and cpc (0), and passes every other cell through unchanged, missing values
included. -/
theorem C7_clean_data_no_drop (l : List LoaderRow) (r : LoaderRow) (h : r ∈ l) :
    (clean_data l).length = l.length ∧
    cleanRow r ∈ clean_data l ∧
    (cleanRow r).keywordDifficulty = some (r.keywordDifficulty.getD 50) ∧
    (cleanRow r).cpc = some (r.cpc.getD 0) ∧
    (cleanRow r).position = r.position ∧
    (cleanRow r).searchVolume = r.searchVolume ∧
    (cleanRow r).traffic = r.traffic ∧
    (cleanRow r).trafficPct = r.trafficPct ∧
    (cleanRow r).trafficCost = r.trafficCost ∧
    (cleanRow r).competition = r.competition :=
  ⟨List.length_map l cleanRow, List.mem_map_of_mem cleanRow h,
   rfl, rfl, rfl, rfl, rfl, rfl, rfl, rfl⟩

/-- Witness for C7: the all-unparsable row survives cleaning. -/
theorem C7_clean_data_no_drop_witness :
    cleanRow badLoaderRow ∈ clean_data [badLoaderRow] :=
  (C7_clean_data_no_drop [badLoaderRow] badLoaderRow (List.mem_singleton.mpr rfl)).2.1

/-- C7 counterexample: a row whose position and search volume failed to
parse is NOT dropped (the cleaned table still has one row, with the cells
left missing), and its unparsable traffic cell stays `NaN` instead of
becoming 0. -/
theorem C7_counterexample :
    (clean_data [badLoaderRow]).length = 1 ∧
    (clean_data [badLoaderRow]).map CleanRow.position = [none] ∧
    (clean_data [badLoaderRow]).map CleanRow.searchVolume = [none] ∧
    (clean_data [badLoaderRow]).map CleanRow.traffic = [none] ∧
    (clean_data [badLoaderRow]).map CleanRow.traffic ≠ [some 0] := by
  refine ⟨rfl, rfl, rfl, rfl, ?_⟩
  intro hx
  rw [show (clean_data [badLoaderRow]).map CleanRow.traffic = [none] from rfl] at hx
  injection hx with h1 h2
  exact Option.noConfusion h1

/-- C10 (confirmed): with no data loaded, the four category operations
return empty tables and the content-gap analysis returns empty tables for
all three funnel stages, with no failure. -/
theorem C10_no_data_all_empty (s : AnalyzerState) (h : s.merged_df = none) :
    get_quick_wins s = [] ∧ get_steal_opportunities s = [] ∧
    get_defensive_keywords s = [] ∧ get_client_wins s = [] ∧
    (get_content_gap_analysis s).2.tofu = [] ∧
    (get_content_gap_analysis s).2.mofu = [] ∧
    (get_content_gap_analysis s).2.bofu = [] := by
  obtain ⟨c, k, m⟩ := s
  dsimp only at h
  subst h
  exact ⟨rfl, rfl, rfl, rfl, rfl, rfl, rfl⟩

/-- Witness for C10 at the freshly constructed analyzer. -/
theorem C10_no_data_all_empty_witness :
    get_quick_wins initState = [] ∧ get_steal_opportunities initState = [] ∧
    get_defensive_keywords initState = [] ∧ get_client_wins initState = [] ∧
    (get_content_gap_analysis initState).2.tofu = [] ∧
    (get_content_gap_analysis initState).2.mofu = [] ∧
    (get_content_gap_analysis initState).2.bofu = [] :=
  C10_no_data_all_empty initState rfl

end KeywordGap
